import Mathlib

/-!
Verification of the `python_server` Unix-domain-socket command server
(`src/python_server/server.py`) against its natural-language specification.

The development is a shallow embedding of the server's pure core:

* JSON values are modelled by the inductive `Json`; Python's truthiness,
  its `dict.get`, its `is None` test on values decoded from JSON, and its
  dict-key equality (where `True == 1` and `1 == 1.0`) are modelled
  explicitly.
* Numbers are modelled by `Rat` (exact arithmetic).  Where the source
  works with machine floats (`float(...)` coercion in `handle_calculate`)
  the embedding is exact where the claims need it and abstracts the parts
  no claim depends on: parsing of numeric strings (`strToFloat`) and the
  float `**` operator (`fpow`) are parameters of the embedding.
* Exceptions are modelled by `Except PyExc`; a raised exception is an
  `.error`.  `ServerError(code, message)` raised by the handlers is the
  `.serverError` constructor; `TypeError` (unhashable dict key) and
  `AttributeError` (`.get` on a non-dict) are the others that can occur.
* Wall-clock reads (`datetime.now()`, `time.time()`) are modelled by an
  explicit `Clock` argument.
* The per-connection state of `handle_client` (its string buffer) is
  explicit.  The read loop is modelled at the byte level: received
  chunks are lists of bytes, each decoded on its own by a strict UTF-8
  decoder (`utf8Decode`, modelling `data.decode('utf-8')` of line 302,
  whose failure is Python's `UnicodeDecodeError` and terminates the
  connection), and the inner framing loop of lines 305-310 over the
  decoded text is `drainFuel`/`drain`; `runByteChunks` composes the
  two.  Extracted frames are lists of characters.  `json.loads` is
  abstracted as a `parse` parameter (`.error` models
  `json.JSONDecodeError`); concrete stand-ins for it are used only where
  a theorem needs a concrete frame.

Python-specific renderings that no theorem ever evaluates (`str()` of a
list or a dict inside an f-string) are approximated and documented at
their definition.
-/

namespace PythonServer

/-- JSON values, as decoded by `json.loads`: `null`, booleans, numbers,
strings, arrays and objects.  Python represents a decoded object as a
`dict`; field order is kept.  Numbers are modelled exactly by `Rat`
(Python would use `int`/`float`). -/
inductive Json where
  | null : Json
  | bool (b : Bool) : Json
  | num (q : Rat) : Json
  | str (s : String) : Json
  | arr (elems : List Json) : Json
  | obj (fields : List (String × Json)) : Json

/-- Python truthiness (`if x:`) of a decoded JSON value: `None`, `False`,
`0`, `""`, `[]` and `{}` are falsy, everything else is truthy. -/
def Json.truthy : Json → Bool
  | .null => false
  | .bool b => b
  | .num q => if q = 0 then false else true
  | .str s => if s = "" then false else true
  | .arr elems => !elems.isEmpty
  | .obj fields => !fields.isEmpty

/-- Truthiness of a value that may be absent: `dict.get` returns `None`
for an absent key, and `None` is falsy. -/
def optTruthy : Option Json → Bool
  | none => false
  | some j => j.truthy

/-- Python `x is None` for a value obtained from `dict.get(k)`: true when
the key was absent (Python `None`) and when its value was JSON `null`
(also decoded to Python `None`). -/
def isNoneLike : Option Json → Bool
  | none => true
  | some .null => true
  | some _ => false

/-- Field lookup in a decoded JSON object (first binding wins, as in a
Python dict, whose keys are unique). -/
def jlookup (fields : List (String × Json)) (key : String) : Option Json :=
  (fields.find? (fun p => p.1 = key)).map (fun p => p.2)

/-- Python type name of a decoded JSON value, as it appears in
`TypeError`/`AttributeError` messages.  For `num` the source language
distinguishes `int` from `float`; the embedding approximates this by the
denominator (an integer JSON literal decodes to a Python `int`). -/
def pyTypeName : Json → String
  | .null => "NoneType"
  | .bool _ => "bool"
  | .num q => if q.den = 1 then "int" else "float"
  | .str _ => "str"
  | .arr _ => "list"
  | .obj _ => "dict"

/-- Python `str()` of a decoded JSON value, used by the f-strings of the
source (`f"Unknown command: {command}"`, `f"Key '{key}' not found"`).
Exact for strings, booleans and `None` — the cases any theorem below
evaluates; numbers, lists and dicts are approximated (no claim inspects
a message built from one). -/
def pyStr : Json → String
  | .str s => s
  | .bool true => "True"
  | .bool false => "False"
  | .null => "None"
  | .num q => toString q.num
  | .arr _ => "<list>"
  | .obj _ => "<dict>"

/-- Whether a decoded JSON value is hashable in Python, i.e. usable as a
dict key or in a `x in dict` test: lists and dicts are not. -/
def Json.hashable : Json → Bool
  | .arr _ => false
  | .obj _ => false
  | _ => true

/-- The numeric value Python uses when comparing a decoded scalar for
dict-key equality: `True == 1`, `False == 0`, `1 == 1.0`. -/
def keyNumVal : Json → Option Rat
  | .bool b => some (if b then 1 else 0)
  | .num q => some q
  | _ => none

/-- Python `==` between two (hashable) decoded JSON values, as used for
dict-key lookup in `storage`: numbers and booleans compare by numeric
value, strings and `None` by themselves, values of unrelated kinds are
unequal. -/
def pyKeyEq (a b : Json) : Bool :=
  match keyNumVal a, keyNumVal b with
  | some x, some y => if x = y then true else false
  | _, _ =>
    match a, b with
    | .null, .null => true
    | .str s, .str t => if s = t then true else false
    | _, _ => false

/-- A Python exception escaping or raised inside a handler.
`serverError` is the source's `ServerError(code, message)`; `typeError`
models `TypeError` (unhashable key); `attributeError` models
`AttributeError` (`.get` called on a non-dict message). -/
inductive PyExc where
  | serverError (code message : String) : PyExc
  | typeError (message : String) : PyExc
  | attributeError (message : String) : PyExc

/-- Python `str(e)` of an exception, as interpolated by `handle_client`
into its `PROCESSING_ERROR` message and by `process_command` into its
`INTERNAL_ERROR` message.  `ServerError.__init__` forwards `message` to
`Exception.__init__`, so `str` of a `ServerError` is its message. -/
def PyExc.toMessage : PyExc → String
  | .serverError _ message => message
  | .typeError message => message
  | .attributeError message => message

/-- A single quote wrapper, the `'{x}'` pattern of the source's
f-strings. -/
def sq (s : String) : String := "'" ++ s ++ "'"

/-- The message of the `TypeError` Python raises when a list or dict is
used as a dict key (`storage[key]`, `key in storage`,
`operation not in operations`). -/
def unhashableMsg (j : Json) : String :=
  "unhashable type: " ++ sq (pyTypeName j)

/-- The wall-clock values the impure source reads
(`datetime.now().isoformat()`, `time.time()`,
`datetime.now().strftime(...)`), passed explicitly to the embedding. -/
structure Clock where
  iso : String
  unix : Rat
  formatted : String

/-- The process-wide `storage` dict (server.py line 24), modelled as an
association list with unique keys in insertion order.  Keys are compared
with Python `==` (`pyKeyEq`). -/
def Storage := List (Json × Json)

/-- `storage[key]` lookup (read side): the value of the first — in a
Python dict, only — entry whose key compares `==` to `key`. -/
def storeGet (st : Storage) (key : Json) : Option Json :=
  ((st : List (Json × Json)).find? (fun p => pyKeyEq p.1 key)).map (fun p => p.2)

/-- `key in storage`. -/
def storeMem (st : Storage) (key : Json) : Bool :=
  (storeGet st key).isSome

/-- `storage[key] = value`: replace the value of the existing entry
(keeping the stored key object and its position, as a Python dict does),
or append a new entry. -/
def storeSet : Storage → Json → Json → Storage
  | [], key, value => [(key, value)]
  | (k, v) :: rest, key, value =>
    if pyKeyEq k key then (k, value) :: rest
    else (k, v) :: storeSet rest key value

/-- `del storage[key]`: drop the entry for `key`.  A Python dict holds at
most one entry per key; removing every `==`-equal entry coincides with
that on dict-shaped lists and is total on arbitrary ones. -/
def storeDel (st : Storage) (key : Json) : Storage :=
  (st : List (Json × Json)).filter (fun p => !(pyKeyEq p.1 key))

/-- `len(storage)`. -/
def storeLen (st : Storage) : Nat := (st : List (Json × Json)).length

/-- `list(storage.keys())` (insertion order). -/
def storeKeys (st : Storage) : List Json :=
  (st : List (Json × Json)).map (fun p => p.1)

/-- The response envelope dict built by `create_response` (server.py
lines 35-52): the constant `"type": "response"` entry is implicit, the
optional entries are `Option`-valued (`none` = key absent from the
dict). -/
structure Response where
  success : Bool
  timestamp : String
  request_id : Option Json
  data : Option Json
  error : Option Json

/-- `create_response` (server.py lines 35-52).  `request_id` is added
only when truthy (`if request_id:`); `data` only when `success` holds
and `data is not None`; `error` only (elif) when `success` fails and
`error` is truthy. -/
def create_response (clock : Clock) (request_id : Option Json) (success : Bool)
    (data : Option Json) (error : Option Json) : Response :=
  { success := success
    timestamp := clock.iso
    request_id := if optTruthy request_id then request_id else none
    data := if success && data.isSome then data else none
    error :=
      if success && data.isSome then none
      else if !success && optTruthy error then error else none }

/-- The `{"code": ..., "message": ...}` dict passed by
`create_error_response`. -/
def errObj (code message : String) : Json :=
  .obj [("code", .str code), ("message", .str message)]

/-- `create_error_response` (server.py lines 55-62). -/
def create_error_response (clock : Clock) (request_id : Option Json)
    (error_code error_message : String) : Response :=
  create_response clock request_id false none (some (errObj error_code error_message))

/-- `message.get(key)`: `AttributeError` when the receiver is not a
dict, otherwise the field's value (`none` = key absent, Python
`None`). -/
def objGet (j : Json) (key : String) : Except PyExc (Option Json) :=
  match j with
  | .obj fields => .ok (jlookup fields key)
  | other => .error (.attributeError
      (sq (pyTypeName other) ++ " object has no attribute " ++ sq "get"))

/-- `command_data.get(key, default)`: like `objGet` with a default for an
absent key (a present `null` value is returned as `null`, exactly as
Python returns the stored `None`). -/
def objGetD (j : Json) (key : String) (default : Json) : Except PyExc Json :=
  match j with
  | .obj fields => .ok ((jlookup fields key).getD default)
  | other => .error (.attributeError
      (sq (pyTypeName other) ++ " object has no attribute " ++ sq "get"))

/-- A handler's outcome: a payload and the storage after the call, or a
raised exception (`ServerError` or an unanticipated Python error). -/
abbrev HandlerResult := Except PyExc (Json × Storage)

/-- `handle_echo` (server.py lines 65-70). -/
def handle_echo (st : Storage) (command_data : Json) : HandlerResult := do
  let message ← objGetD command_data "message" (.str "")
  if !message.truthy then
    .error (.serverError "INVALID_INPUT" "Message field is required")
  else
    .ok (.obj [("echo", message)], st)

/-- `handle_time` (server.py lines 73-79). -/
def handle_time (clock : Clock) (st : Storage) (_command_data : Json) : HandlerResult :=
  .ok (.obj [("timestamp", .str clock.iso),
             ("unix_timestamp", .num clock.unix),
             ("formatted", .str clock.formatted)], st)

/-- Python `float(x)` on a decoded JSON value: numbers pass through,
booleans coerce to `1.0`/`0.0`, strings go through the abstracted
numeric-string parse `strToFloat` (`none` = `ValueError`), `None`, lists
and dicts raise `TypeError` (`none`). -/
def pyFloat (strToFloat : String → Option Rat) : Json → Option Rat
  | .num q => some q
  | .bool b => some (if b then 1 else 0)
  | .str s => strToFloat s
  | _ => none

/-- Python float `x % y` (sign follows the divisor), exact on
rationals. -/
def pyMod (x y : Rat) : Rat := x - y * ((x / y).floor : Rat)

/-- The keys of the `operations` dict of `handle_calculate`, in order. -/
def calcOperations : List String :=
  ["add", "subtract", "multiply", "divide", "power", "modulo"]

/-- `operation in operations` for a hashable decoded value: only the six
string keys are members (a number or boolean never equals a string). -/
def calcOpLookup : Json → Option String
  | .str s => if s ∈ calcOperations then some s else none
  | _ => none

/-- The body of one `operations[...]` lambda (server.py lines 96-103):
`none` is the Python `None` returned by `divide`/`modulo` on a zero
divisor; `power` is the abstracted float `**` (`fpow`, which may itself
raise). -/
def calcApply (fpow : Rat → Rat → Except PyExc Rat) (opname : String)
    (a b : Rat) : Except PyExc (Option Rat) :=
  match opname with
  | "add" => .ok (some (a + b))
  | "subtract" => .ok (some (a - b))
  | "multiply" => .ok (some (a * b))
  | "divide" => .ok (if b = 0 then none else some (a / b))
  | "power" => (fpow a b).map some
  | "modulo" => .ok (if b = 0 then none else some (pyMod a b))
  | _ => .ok none

/-- `handle_calculate` (server.py lines 82-118): missing operands
(absent or `null`) fail first, then the `float` coercion, then the
membership test on `operation` (which raises `TypeError` for an
unhashable value), then the zero-divisor `None` result becomes
`MATH_ERROR`.  The success payload carries the coerced operands. -/
def handle_calculate (strToFloat : String → Option Rat)
    (fpow : Rat → Rat → Except PyExc Rat)
    (st : Storage) (command_data : Json) : HandlerResult := do
  let operation ← objGet command_data "operation"
  let aRaw ← objGet command_data "a"
  let bRaw ← objGet command_data "b"
  if isNoneLike operation || isNoneLike aRaw || isNoneLike bRaw then
    .error (.serverError "INVALID_INPUT" "operation, a, and b are required")
  else
    match pyFloat strToFloat (aRaw.getD .null), pyFloat strToFloat (bRaw.getD .null) with
    | some a, some b =>
      let op := operation.getD .null
      if !op.hashable then
        .error (.typeError (unhashableMsg op))
      else
        match calcOpLookup op with
        | none =>
          .error (.serverError "INVALID_OPERATION"
            ("Operation must be one of: " ++ String.intercalate ", " calcOperations))
        | some opname => do
          match ← calcApply fpow opname a b with
          | none => .error (.serverError "MATH_ERROR" "Division by zero or invalid operation")
          | some result =>
            .ok (.obj [("operation", .str opname), ("a", .num a),
                       ("b", .num b), ("result", .num result)], st)
    | _, _ => .error (.serverError "INVALID_INPUT" "a and b must be numbers")

/-- `handle_store` (server.py lines 121-134): a missing or `null` key is
`INVALID_INPUT`; an unhashable key raises `TypeError` at
`storage[key] = value`; otherwise the pair is written and the payload
echoes the key. -/
def handle_store (st : Storage) (command_data : Json) : HandlerResult := do
  let keyOpt ← objGet command_data "key"
  let valueOpt ← objGet command_data "value"
  if isNoneLike keyOpt then
    .error (.serverError "INVALID_INPUT" "key is required")
  else
    let key := keyOpt.getD .null
    let value := valueOpt.getD .null
    if !key.hashable then
      .error (.typeError (unhashableMsg key))
    else
      .ok (.obj [("key", key), ("stored", .bool true),
                 ("message", .str ("Value stored for key " ++ sq (pyStr key)))],
           storeSet st key value)

/-- `handle_retrieve` (server.py lines 137-150): missing/`null` key is
`INVALID_INPUT`, an unhashable key raises `TypeError` at
`key not in storage`, an absent key is `KEY_NOT_FOUND`, otherwise the
payload carries the stored value. -/
def handle_retrieve (st : Storage) (command_data : Json) : HandlerResult := do
  let keyOpt ← objGet command_data "key"
  if isNoneLike keyOpt then
    .error (.serverError "INVALID_INPUT" "key is required")
  else
    let key := keyOpt.getD .null
    if !key.hashable then
      .error (.typeError (unhashableMsg key))
    else if !storeMem st key then
      .error (.serverError "KEY_NOT_FOUND"
        ("Key " ++ sq (pyStr key) ++ " not found in storage"))
    else
      .ok (.obj [("key", key), ("value", (storeGet st key).getD .null)], st)

/-- `handle_list_keys` (server.py lines 153-158). -/
def handle_list_keys (st : Storage) (_command_data : Json) : HandlerResult :=
  .ok (.obj [("keys", .arr (storeKeys st)), ("count", .num (storeLen st))], st)

/-- `handle_delete` (server.py lines 161-176). -/
def handle_delete (st : Storage) (command_data : Json) : HandlerResult := do
  let keyOpt ← objGet command_data "key"
  if isNoneLike keyOpt then
    .error (.serverError "INVALID_INPUT" "key is required")
  else
    let key := keyOpt.getD .null
    if !key.hashable then
      .error (.typeError (unhashableMsg key))
    else if !storeMem st key then
      .error (.serverError "KEY_NOT_FOUND" ("Key " ++ sq (pyStr key) ++ " not found"))
    else
      .ok (.obj [("key", key), ("deleted", .bool true),
                 ("message", .str ("Key " ++ sq (pyStr key) ++ " deleted"))],
           storeDel st key)

/-- `handle_ping` (server.py lines 179-185). -/
def handle_ping (clock : Clock) (st : Storage) (_command_data : Json) : HandlerResult :=
  .ok (.obj [("status", .str "ok"), ("server_time", .str clock.iso),
             ("storage_size", .num (storeLen st))], st)

/-- The static payload of `handle_help` (server.py lines 188-233). -/
def helpPayload : Json :=
  .obj [("commands", .obj
    [("echo", .obj [("description", .str "Echo back a message"),
       ("parameters", .obj [("message", .str "string - message to echo")])]),
     ("time", .obj [("description", .str "Get current server time"),
       ("parameters", .obj [])]),
     ("calculate", .obj [("description", .str "Perform arithmetic operations"),
       ("parameters", .obj
         [("operation", .str "string - add, subtract, multiply, divide, power, modulo"),
          ("a", .str "number - first operand"),
          ("b", .str "number - second operand")])]),
     ("store", .obj [("description", .str "Store a key-value pair"),
       ("parameters", .obj [("key", .str "string - storage key"),
          ("value", .str "any - value to store")])]),
     ("retrieve", .obj [("description", .str "Retrieve a value by key"),
       ("parameters", .obj [("key", .str "string - storage key")])]),
     ("list_keys", .obj [("description", .str "List all stored keys"),
       ("parameters", .obj [])]),
     ("delete", .obj [("description", .str "Delete a key from storage"),
       ("parameters", .obj [("key", .str "string - storage key")])]),
     ("ping", .obj [("description", .str "Health check - returns server status"),
       ("parameters", .obj [])]),
     ("help", .obj [("description", .str "Show this help message"),
       ("parameters", .obj [])])])]

/-- `handle_help` (server.py lines 188-233). -/
def handle_help (st : Storage) (_command_data : Json) : HandlerResult :=
  .ok (helpPayload, st)

/-- The keys of `COMMAND_HANDLERS` (server.py lines 237-247), in
registration order. -/
def COMMAND_HANDLERS : List String :=
  ["echo", "time", "calculate", "store", "retrieve", "list_keys", "delete", "ping", "help"]

/-- `command in COMMAND_HANDLERS` for a hashable decoded value, and the
matched registry key: only the nine string names are members. -/
def registryLookup : Json → Option String
  | .str s => if s ∈ COMMAND_HANDLERS then some s else none
  | _ => none

/-- `COMMAND_HANDLERS[command](command_data)`: run the registered
handler.  Only called with one of the nine registry names. -/
def runHandler (strToFloat : String → Option Rat)
    (fpow : Rat → Rat → Except PyExc Rat) (clock : Clock)
    (name : String) (st : Storage) (command_data : Json) : HandlerResult :=
  match name with
  | "echo" => handle_echo st command_data
  | "time" => handle_time clock st command_data
  | "calculate" => handle_calculate strToFloat fpow st command_data
  | "store" => handle_store st command_data
  | "retrieve" => handle_retrieve st command_data
  | "list_keys" => handle_list_keys st command_data
  | "delete" => handle_delete st command_data
  | "ping" => handle_ping clock st command_data
  | _ => handle_help st command_data

/-- The `try/except` block of `process_command` (server.py lines
263-275): a handler's return value is wrapped as a success envelope, a
handler's `ServerError` keeps its own code and message, and any other
exception becomes `INTERNAL_ERROR` with `str(e)` in the message.  The
storage is unchanged on the error paths (every handler raises before it
mutates). -/
def wrapHandler (clock : Clock) (request_id : Option Json) (st : Storage)
    (res : HandlerResult) : Response × Storage :=
  match res with
  | .ok (result, st') =>
    (create_response clock request_id true (some result) none, st')
  | .error (.serverError code msg) =>
    (create_error_response clock request_id code msg, st)
  | .error e =>
    (create_error_response clock request_id "INTERNAL_ERROR"
      ("Internal server error: " ++ e.toMessage), st)

/-- `process_command` (server.py lines 250-275).  The result is `.ok`
with the envelope when the function returns one; it is `.error` when an
exception escapes `process_command` itself — which happens exactly for
the `ServerError("INVALID_REQUEST", ...)` and
`ServerError("UNKNOWN_COMMAND", ...)` raised at lines 256-261 (both sit
before the `try:` of line 263 and are therefore not converted to an
envelope), for the `TypeError` of the membership test on an unhashable
`command`, and for the `AttributeError` of `.get` on a non-dict
message. -/
def process_command (strToFloat : String → Option Rat)
    (fpow : Rat → Rat → Except PyExc Rat) (clock : Clock)
    (st : Storage) (message : Json) : Except PyExc (Response × Storage) := do
  let request_id ← objGet message "request_id"
  let command ← objGet message "command"
  let command_data ← objGetD message "data" (.obj [])
  if !optTruthy command then
    .error (.serverError "INVALID_REQUEST" "Command field is required")
  else
    let c := command.getD .null
    if !c.hashable then
      .error (.typeError (unhashableMsg c))
    else
      match registryLookup c with
      | none =>
        .error (.serverError "UNKNOWN_COMMAND"
          ("Unknown command: " ++ pyStr c ++ ". Use " ++ sq "help"
            ++ " to see available commands"))
      | some name =>
        .ok (wrapHandler clock request_id st
          (runHandler strToFloat fpow clock name st command_data))

/-- One decoded message through the body of `handle_client`'s loop
(server.py lines 312-339, after `json.loads` succeeded): the envelope
`process_command` returns, or — when an exception escapes it — the
`PROCESSING_ERROR` envelope of the `except Exception` branch (lines
332-339), built with `request_id=None`.  Either way the loop continues:
the connection is not terminated. -/
def respondDecoded (strToFloat : String → Option Rat)
    (fpow : Rat → Rat → Except PyExc Rat) (clock : Clock)
    (st : Storage) (message : Json) : Response × Storage :=
  match process_command strToFloat fpow clock st message with
  | .ok p => p
  | .error e =>
    (create_error_response clock none "PROCESSING_ERROR"
      ("Error processing message: " ++ e.toMessage), st)

/-- The loop of `handle_client` over a sequence of already-decoded
messages: one response per message, in order, threading the shared
storage. -/
def runMessages (strToFloat : String → Option Rat)
    (fpow : Rat → Rat → Except PyExc Rat) (clock : Clock) :
    Storage → List Json → List Response × Storage
  | st, [] => ([], st)
  | st, m :: ms =>
    let p := respondDecoded strToFloat fpow clock st m
    let r := runMessages strToFloat fpow clock p.2 ms
    (p.1 :: r.1, r.2)

/-- One complete frame through the body of `handle_client`'s loop
(server.py lines 312-339).  `parse` abstracts `json.loads`: `.error msg`
is a `json.JSONDecodeError` with message `msg`, answered by the
`INVALID_JSON` envelope of lines 324-331 (built with `request_id=None`);
a decoded value goes to `process_command`. -/
def respondFrame (parse : List Char → Except String Json)
    (strToFloat : String → Option Rat)
    (fpow : Rat → Rat → Except PyExc Rat) (clock : Clock)
    (st : Storage) (frame : List Char) : Response × Storage :=
  match parse frame with
  | .error emsg =>
    (create_error_response clock none "INVALID_JSON" ("Invalid JSON format: " ++ emsg), st)
  | .ok message => respondDecoded strToFloat fpow clock st message

/-- The loop of `handle_client` over a sequence of complete frames: one
response per frame, in order, threading the shared storage.  The loop
never breaks on a bad frame — every `except` branch sends an envelope
and continues —, so the run is total. -/
def runFrames (parse : List Char → Except String Json)
    (strToFloat : String → Option Rat)
    (fpow : Rat → Rat → Except PyExc Rat) (clock : Clock) :
    Storage → List (List Char) → List Response × Storage
  | st, [] => ([], st)
  | st, f :: fs =>
    let p := respondFrame parse strToFloat fpow clock st f
    let r := runFrames parse strToFloat fpow clock p.2 fs
    (p.1 :: r.1, r.2)

/-- `buffer.split('\n', 1)`: split at the first newline, `none` when the
buffer holds no newline (the `while '\n' in buffer` guard fails). -/
def splitFirst : List Char → Option (List Char × List Char)
  | [] => none
  | c :: cs =>
    if c = '\n' then some ([], cs)
    else (splitFirst cs).map (fun p => (c :: p.1, p.2))

/-- Python's default `str.strip()` whitespace characters (ASCII; the
frames of this protocol are JSON text). -/
def isSpace (c : Char) : Bool :=
  c = ' ' || c = '\t' || c = '\n' || c = '\r' || c = '\x0b' || c = '\x0c'

/-- `line.strip()`. -/
def pyStrip (l : List Char) : List Char :=
  ((l.dropWhile isSpace).reverse.dropWhile isSpace).reverse

/-- The inner `while '\n' in buffer:` loop of `handle_client` (server.py
lines 305-310), fuel-indexed for structural recursion: split off the
text before the first newline, strip it, skip it when empty, and go on
with the remainder.  Returns the extracted (dispatched) frames in order
and the final buffer.  Each iteration consumes at least the newline, so
`buffer.length` fuel always suffices (`drain` below). -/
def drainFuel : Nat → List Char → List (List Char) × List Char
  | 0, buffer => ([], buffer)
  | fuel + 1, buffer =>
    match splitFirst buffer with
    | none => ([], buffer)
    | some (line, rest) =>
      let r := drainFuel fuel rest
      let t := pyStrip line
      (if t.isEmpty then r.1 else t :: r.1, r.2)

/-- The inner framing loop on a buffer: all complete frames it
dispatches and the partial remainder it leaves buffered. -/
def drain (buffer : List Char) : List (List Char) × List Char :=
  drainFuel buffer.length buffer

/-- Whether a byte is a UTF-8 continuation byte (`0x80`-`0xBF`). -/
def contByte (b : Nat) : Bool := 0x80 ≤ b && b ≤ 0xBF

/-- The allowed range of the first continuation byte of a three-byte
UTF-8 sequence: leader `0xE0` narrows it to exclude overlong encodings,
leader `0xED` narrows it to exclude surrogates. -/
def cont3First (b b1 : Nat) : Bool :=
  if b = 0xE0 then 0xA0 ≤ b1 && b1 ≤ 0xBF
  else if b = 0xED then 0x80 ≤ b1 && b1 ≤ 0x9F
  else contByte b1

/-- The allowed range of the first continuation byte of a four-byte
UTF-8 sequence: leader `0xF0` narrows it to exclude overlong encodings,
leader `0xF4` narrows it to cap code points at `U+10FFFF`. -/
def cont4First (b b1 : Nat) : Bool :=
  if b = 0xF0 then 0x90 ≤ b1 && b1 ≤ 0xBF
  else if b = 0xF4 then 0x80 ≤ b1 && b1 ≤ 0x8F
  else contByte b1

/-- Decode one UTF-8 code point from the head of a byte sequence, as
Python's strict `bytes.decode('utf-8')` does: the decoded character and
the remaining bytes, or `none` for an invalid or truncated sequence
(lone continuation byte, forbidden leader, overlong form, surrogate,
out-of-range code point, or a multi-byte sequence cut short — the case a
`recv` boundary inside a character produces). -/
def utf8DecodeOne : List Nat → Option (Char × List Nat)
  | [] => none
  | b :: rest =>
    if b ≤ 0x7F then some (Char.ofNat b, rest)
    else if 0xC2 ≤ b && b ≤ 0xDF then
      match rest with
      | b1 :: rest1 =>
        if contByte b1 then
          some (Char.ofNat ((b - 0xC0) * 0x40 + (b1 - 0x80)), rest1)
        else none
      | [] => none
    else if 0xE0 ≤ b && b ≤ 0xEF then
      match rest with
      | b1 :: b2 :: rest2 =>
        if cont3First b b1 && contByte b2 then
          some (Char.ofNat ((b - 0xE0) * 0x1000 + (b1 - 0x80) * 0x40 + (b2 - 0x80)), rest2)
        else none
      | _ => none
    else if 0xF0 ≤ b && b ≤ 0xF4 then
      match rest with
      | b1 :: b2 :: b3 :: rest3 =>
        if cont4First b b1 && contByte b2 && contByte b3 then
          some (Char.ofNat ((b - 0xF0) * 0x40000 + (b1 - 0x80) * 0x1000
            + (b2 - 0x80) * 0x40 + (b3 - 0x80)), rest3)
        else none
      | _ => none
    else none

/-- `bytes.decode('utf-8')` on a whole chunk, fuel-indexed for
structural recursion: decode code points until the bytes are exhausted;
`none` models the `UnicodeDecodeError` Python raises when any part of
the chunk is not a complete, valid UTF-8 sequence.  Each step consumes
at least one byte, so `bytes.length` fuel always suffices
(`utf8Decode` below). -/
def utf8DecodeFuel : Nat → List Nat → Option (List Char)
  | _, [] => some []
  | 0, _ :: _ => none
  | fuel + 1, b :: rest =>
    match utf8DecodeOne (b :: rest) with
    | none => none
    | some (c, rest') => (utf8DecodeFuel fuel rest').map (fun t => c :: t)

/-- `data.decode('utf-8')` (server.py line 302): the chunk's text, or
`none` for `UnicodeDecodeError`. -/
def utf8Decode (bytes : List Nat) : Option (List Char) :=
  utf8DecodeFuel bytes.length bytes

/-- Decode every chunk of a received sequence on its own, as line 302
does chunk by chunk: the list of decoded texts, or `none` as soon as one
chunk is not valid UTF-8 by itself. -/
def decodeChunks : List (List Nat) → Option (List (List Char))
  | [] => some []
  | c :: cs =>
    match utf8Decode c with
    | none => none
    | some t => (decodeChunks cs).map (fun ts => t :: ts)

/-- The outer `while True:` read loop of `handle_client` (server.py
lines 297-310) at the byte level: each received chunk is decoded as
UTF-8 on its own (line 302, `buffer += data.decode('utf-8')`) and the
text appended to the buffer, then all complete frames are drained.
Returns every dispatched frame in order, and `some` final buffer — or
`none` when a chunk fails to decode: line 302 sits outside the
per-message `try` of line 312, so the `UnicodeDecodeError` propagates to
the outer `except` (line 343) and the connection is closed; the frames
already dispatched stay sent, nothing further is dispatched.  The chunk
list models the non-empty `recv` results before EOF. -/
def runByteChunks : List Char → List (List Nat) → List (List Char) × Option (List Char)
  | buffer, [] => ([], some buffer)
  | buffer, chunk :: chunks =>
    match utf8Decode chunk with
    | none => ([], none)
    | some text =>
      let d := drain (buffer ++ text)
      let r := runByteChunks d.2 chunks
      (d.1 ++ r.1, r.2)

/-! Concrete stand-ins for the abstracted environment, used by the
closed (witness and counterexample) theorems: a numeric-string parse
that accepts nothing, a float power that always returns `0`, a fixed
clock, and a `json.loads` stand-in defined exactly on the frames a
theorem feeds it. -/

/-- A `float(s)` string parse accepting no string. -/
def stf0 : String → Option Rat := fun _ => none

/-- A float `**` stand-in. -/
def fpow0 : Rat → Rat → Except PyExc Rat := fun _ _ => .ok 0

/-- A fixed wall clock. -/
def clock0 : Clock := ⟨"2024-01-01T00:00:00", 1704067200, "2024-01-01 00:00:00"⟩

/-- `json.loads` on the single frame `5`: valid JSON, decoding to the
number `5` (a Python `int`, not a dict); every other frame is a decode
error. -/
def parseOnly5 : List Char → Except String Json := fun f =>
  if f = ("5").toList then .ok (.num 5)
  else .error "Expecting value: line 1 column 1 (char 0)"

/-- A `json.loads` stand-in that fails on every frame. -/
def parseFail : List Char → Except String Json := fun _ =>
  .error "Expecting value: line 1 column 1 (char 0)"

/-- The `request_id` field of a decoded request, as `process_command`
reads it (`message.get("request_id")`; `none` when the message is not a
dict or has no such field). -/
def msgRequestId : Json → Option Json
  | .obj fields => jlookup fields "request_id"
  | _ => none

/-! Helper lemmas. -/

@[simp]
theorem except_bind_ok {ε α β : Type} (a : α) (f : α → Except ε β) :
    (Except.ok a : Except ε α) >>= f = f a := rfl

@[simp]
theorem except_bind_error {ε α β : Type} (e : ε) (f : α → Except ε β) :
    (Except.error e : Except ε α) >>= f = (.error e : Except ε β) := rfl

theorem pyKeyEq_refl (k : Json) (h : k.hashable = true) : pyKeyEq k k = true := by
  cases k <;> simp_all [pyKeyEq, keyNumVal, Json.hashable]

theorem storeGet_storeSet_self (st : Storage) (k v : Json) (h : k.hashable = true) :
    storeGet (storeSet st k v) k = some v := by
  induction st with
  | nil => simp [storeGet, storeSet, List.find?, pyKeyEq_refl k h]
  | cons p rest ih =>
    by_cases hp : pyKeyEq p.1 k = true
    · simp [storeGet, storeSet, hp, List.find?]
    · simp only [Bool.not_eq_true] at hp
      simpa [storeGet, storeSet, hp, List.find?] using ih

theorem storeMem_storeSet_self (st : Storage) (k v : Json) (h : k.hashable = true) :
    storeMem (storeSet st k v) k = true := by
  simp [storeMem, storeGet_storeSet_self st k v h]

theorem storeGet_storeDel_self (st : Storage) (k : Json) :
    storeGet (storeDel st k) k = none := by
  induction st with
  | nil => rfl
  | cons p rest ih =>
    by_cases hp : pyKeyEq p.1 k = true
    · simp [storeDel, storeGet, hp, List.filter] at ih ⊢
    · simp only [Bool.not_eq_true] at hp
      simp [storeDel, storeGet, hp, List.filter, List.find?] at ih ⊢

theorem storeMem_storeDel_self (st : Storage) (k : Json) :
    storeMem (storeDel st k) k = false := by
  simp [storeMem, storeGet_storeDel_self st k]

theorem isNoneLike_of_ne_null (k : Json) (h : k ≠ Json.null) :
    isNoneLike (some k) = false := by
  cases k <;> simp_all [isNoneLike]

theorem create_response_success_shape (clock : Clock) (rid : Option Json) (p : Json) :
    (create_response clock rid true (some p) none).success = true
    ∧ (create_response clock rid true (some p) none).data = some p
    ∧ (create_response clock rid true (some p) none).error = none
    ∧ (create_response clock rid true (some p) none).request_id
        = (if optTruthy rid then rid else none) := by
  simp [create_response]

theorem create_error_response_shape (clock : Clock) (rid : Option Json) (c m : String) :
    (create_error_response clock rid c m).success = false
    ∧ (create_error_response clock rid c m).data = none
    ∧ (create_error_response clock rid c m).error = some (errObj c m)
    ∧ (create_error_response clock rid c m).request_id
        = (if optTruthy rid then rid else none) := by
  simp [create_error_response, create_response, optTruthy, errObj, Json.truthy]

theorem wrapHandler_shape (clock : Clock) (rid : Option Json) (st : Storage)
    (res : HandlerResult) :
    ((wrapHandler clock rid st res).1.data.isSome = (wrapHandler clock rid st res).1.success)
    ∧ ((wrapHandler clock rid st res).1.error.isSome
        = !(wrapHandler clock rid st res).1.success)
    ∧ ((wrapHandler clock rid st res).1.request_id
        = (if optTruthy rid then rid else none)) := by
  match res with
  | .ok (result, st') =>
    simp [wrapHandler, create_response]
  | .error (.serverError code msg) =>
    simp [wrapHandler, create_error_response_shape]
  | .error (.typeError m) =>
    simp [wrapHandler, create_error_response_shape]
  | .error (.attributeError m) =>
    simp [wrapHandler, create_error_response_shape]

/-- Any `.ok` outcome of `process_command` is a `wrapHandler` envelope:
its shape facts (exactly one of `data`/`error`, truthiness-filtered
`request_id`) transfer. -/
theorem process_command_ok_shape (strToFloat : String → Option Rat)
    (fpow : Rat → Rat → Except PyExc Rat) (clock : Clock)
    (st : Storage) (message : Json) (p : Response × Storage)
    (h : process_command strToFloat fpow clock st message = .ok p) :
    (p.1.data.isSome = p.1.success)
    ∧ (p.1.error.isSome = !p.1.success)
    ∧ (p.1.request_id = (if optTruthy (msgRequestId message) then msgRequestId message
        else none)) := by
  cases message with
  | obj fields =>
    simp only [process_command, objGet, objGetD, msgRequestId, except_bind_ok] at h ⊢
    split at h
    · cases h
    · split at h
      · cases h
      · split at h
        · cases h
        · injection h with h2
          subst h2
          exact wrapHandler_shape clock (jlookup fields "request_id") st _
  | null => cases h
  | bool b => cases h
  | num q => cases h
  | str s => cases h
  | arr elems => cases h

theorem respondDecoded_shape (strToFloat : String → Option Rat)
    (fpow : Rat → Rat → Except PyExc Rat) (clock : Clock)
    (st : Storage) (message : Json) :
    ((respondDecoded strToFloat fpow clock st message).1.data.isSome
       = (respondDecoded strToFloat fpow clock st message).1.success)
    ∧ ((respondDecoded strToFloat fpow clock st message).1.error.isSome
       = !(respondDecoded strToFloat fpow clock st message).1.success) := by
  cases hp : process_command strToFloat fpow clock st message with
  | ok p =>
    have hs := process_command_ok_shape strToFloat fpow clock st message p hp
    simp only [respondDecoded, hp]
    exact ⟨hs.1, hs.2.1⟩
  | error e =>
    simp only [respondDecoded, hp]
    have hs := create_error_response_shape clock none "PROCESSING_ERROR"
      ("Error processing message: " ++ e.toMessage)
    simp [hs.1, hs.2.1, hs.2.2.1]

theorem respondDecoded_request_id (strToFloat : String → Option Rat)
    (fpow : Rat → Rat → Except PyExc Rat) (clock : Clock)
    (st : Storage) (message : Json) :
    (respondDecoded strToFloat fpow clock st message).1.request_id =
      (match process_command strToFloat fpow clock st message with
       | .ok _ => if optTruthy (msgRequestId message) then msgRequestId message else none
       | .error _ => none) := by
  cases hp : process_command strToFloat fpow clock st message with
  | ok p =>
    have hs := process_command_ok_shape strToFloat fpow clock st message p hp
    simp only [respondDecoded, hp]
    exact hs.2.2
  | error e =>
    simp only [respondDecoded, hp]
    simp [create_error_response, create_response, optTruthy]

/-- Claim C8: every envelope dispatch produces — for any request, any
frame and any storage state — carries exactly one of `data` and `error`:
`data` is present and `error` absent exactly when `success` is true, and
vice versa.  Stated for the envelope answering a decoded message
(`respondDecoded`, covering dispatch's success, classified-failure and
`INTERNAL_ERROR`/`PROCESSING_ERROR` paths) and for the envelope
answering a raw frame (`respondFrame`, additionally covering
`INVALID_JSON`). -/
theorem envelope_exactly_one_of_data_error
    (parse : List Char → Except String Json) (strToFloat : String → Option Rat)
    (fpow : Rat → Rat → Except PyExc Rat) (clock : Clock)
    (st : Storage) (message : Json) (frame : List Char) :
    (((respondDecoded strToFloat fpow clock st message).1.data.isSome
        = (respondDecoded strToFloat fpow clock st message).1.success)
      ∧ ((respondDecoded strToFloat fpow clock st message).1.error.isSome
        = !(respondDecoded strToFloat fpow clock st message).1.success))
    ∧ (((respondFrame parse strToFloat fpow clock st frame).1.data.isSome
        = (respondFrame parse strToFloat fpow clock st frame).1.success)
      ∧ ((respondFrame parse strToFloat fpow clock st frame).1.error.isSome
        = !(respondFrame parse strToFloat fpow clock st frame).1.success)) := by
  refine ⟨respondDecoded_shape strToFloat fpow clock st message, ?_⟩
  cases hp : parse frame with
  | error emsg =>
    simp only [respondFrame, hp]
    have hs := create_error_response_shape clock none "INVALID_JSON"
      ("Invalid JSON format: " ++ emsg)
    simp [hs.1, hs.2.1, hs.2.2.1]
  | ok m =>
    simp only [respondFrame, hp]
    exact respondDecoded_shape strToFloat fpow clock st m

/-- Claim C2, counterexample: the claim fails as stated.  A present but
falsy `request_id` (here the empty string, on a successful `ping`) is
dropped from the envelope by the `if request_id:` truthiness test of
`create_response`; and a request whose `command` fails validation (here
`nope`) is answered by the `PROCESSING_ERROR` envelope of
`handle_client`, built with `request_id=None`, so its truthy
`request_id` `"abc"` is dropped too. -/
theorem request_id_not_always_preserved :
    (respondDecoded stf0 fpow0 clock0 []
        (.obj [("command", .str "ping"), ("request_id", .str "")])).1.request_id = none
    ∧ (respondDecoded stf0 fpow0 clock0 []
        (.obj [("command", .str "nope"), ("request_id", .str "abc")])).1.request_id = none :=
  ⟨rfl, rfl⟩

/-- Claim C2, amended: on every dispatch outcome that produces an
envelope inside `process_command` (handler success, handler-declared
classified failure, `INTERNAL_ERROR`) the request's `request_id` is
echoed unchanged when it is truthy and omitted when it is absent or
falsy; a request rejected before dispatch
(`INVALID_REQUEST`/`UNKNOWN_COMMAND`, surfacing as `PROCESSING_ERROR`)
is answered with no `request_id` at all. -/
theorem request_id_truthy_filtered (strToFloat : String → Option Rat)
    (fpow : Rat → Rat → Except PyExc Rat) (clock : Clock)
    (st : Storage) (message : Json) :
    (respondDecoded strToFloat fpow clock st message).1.request_id =
      (match process_command strToFloat fpow clock st message with
       | .ok _ => if optTruthy (msgRequestId message) then msgRequestId message else none
       | .error _ => none) :=
  respondDecoded_request_id strToFloat fpow clock st message

/-- Claim C10: `handle_echo` fails with `INVALID_INPUT` exactly when the
`message` value is absent or falsy (Python truthiness: `""`, `0`,
`false`, `null`, `[]`, `{}`), and any truthy value of any JSON type is
accepted and returned unchanged as `{echo: message}`. -/
theorem echo_rejects_exactly_falsy (st : Storage) (fields : List (String × Json)) :
    (handle_echo st (.obj fields)
        = .error (.serverError "INVALID_INPUT" "Message field is required")
      ↔ ((jlookup fields "message").getD (.str "")).truthy = false)
    ∧ (∀ m : Json, jlookup fields "message" = some m → m.truthy = true →
        handle_echo st (.obj fields) = .ok (.obj [("echo", m)], st)) := by
  constructor
  · cases ht : ((jlookup fields "message").getD (.str "")).truthy <;>
      simp [handle_echo, objGetD, ht]
  · intro m hm htr
    simp [handle_echo, objGetD, hm, htr]

/-- Claim C10, witness: the number `123` is truthy and echoed back; the
number `0` is falsy and rejected. -/
theorem echo_rejects_exactly_falsy_witness :
    handle_echo [] (.obj [("message", .num 123)]) = .ok (.obj [("echo", .num 123)], [])
    ∧ handle_echo [] (.obj [("message", .num 0)])
        = .error (.serverError "INVALID_INPUT" "Message field is required") :=
  ⟨(echo_rejects_exactly_falsy [] [("message", Json.num 123)]).2 (Json.num 123) rfl rfl,
   (echo_rejects_exactly_falsy [] [("message", Json.num 0)]).1.mpr rfl⟩

/-- Claim C1: the `ServerError("UNKNOWN_COMMAND", ...)` and
`ServerError("INVALID_REQUEST", ...)` of `process_command` are raised
before its `try:` block, escape it, and are converted by
`handle_client`'s generic `except Exception` branch into a
`PROCESSING_ERROR` envelope — not into `UNKNOWN_COMMAND`/
`INVALID_REQUEST` envelopes as the spec states.  The raised error does
carry the intended code and a message naming the unknown command and
suggesting `help` (conjuncts 1 and 3), but the client only ever sees
`PROCESSING_ERROR` (conjuncts 2 and 4).  The connection is not
terminated: a following request on the same connection is still answered
(conjunct 5). -/
theorem command_validation_surfaces_as_processing_error
    (strToFloat : String → Option Rat) (fpow : Rat → Rat → Except PyExc Rat)
    (clock : Clock) (st : Storage) :
    process_command strToFloat fpow clock st (.obj [("command", .str "nope")])
      = .error (.serverError "UNKNOWN_COMMAND"
          "Unknown command: nope. Use 'help' to see available commands")
    ∧ (respondDecoded strToFloat fpow clock st (.obj [("command", .str "nope")])).1.error
      = some (errObj "PROCESSING_ERROR"
          "Error processing message: Unknown command: nope. Use 'help' to see available commands")
    ∧ process_command strToFloat fpow clock st (.obj [])
      = .error (.serverError "INVALID_REQUEST" "Command field is required")
    ∧ (respondDecoded strToFloat fpow clock st (.obj [])).1.error
      = some (errObj "PROCESSING_ERROR" "Error processing message: Command field is required")
    ∧ (runMessages strToFloat fpow clock st
        [.obj [("command", .str "nope")], .obj [("command", .str "ping")]]).1.map
          Response.success = [false, true] := by
  refine ⟨rfl, rfl, rfl, rfl, ?_⟩
  simp [runMessages, respondDecoded, process_command, objGet, objGetD, optTruthy,
    Json.truthy, Json.hashable, registryLookup, COMMAND_HANDLERS, runHandler,
    handle_ping, wrapHandler, create_response, create_error_response, jlookup]

/-- Claim C4, counterexample: the claim quantifies over every non-null
key, but a JSON array key (non-null) is unhashable in Python, so
`storage[key] = value` raises `TypeError` and the store/retrieve
round trip fails with `INTERNAL_ERROR` instead of succeeding. -/
theorem store_list_key_fails_internal_error :
    handle_store [] (.obj [("key", .arr []), ("value", .num 1)])
      = .error (.typeError "unhashable type: 'list'")
    ∧ (respondDecoded stf0 fpow0 clock0 []
        (.obj [("command", .str "store"),
               ("data", .obj [("key", .arr []), ("value", .num 1)])])).1.error
      = some (errObj "INTERNAL_ERROR" "Internal server error: unhashable type: 'list'") :=
  ⟨rfl, rfl⟩

/-- Claim C4, amended: for every hashable non-null key `k` (a JSON
string, number or boolean) and every value `v`, `store(key=k, value=v)`
followed by `retrieve(key=k)` succeeds with a payload whose `value` is
exactly `v`, from any prior storage state. -/
theorem store_retrieve_roundtrip (st : Storage) (k v : Json)
    (hh : k.hashable = true) (hn : k ≠ Json.null) :
    handle_store st (.obj [("key", k), ("value", v)])
      = .ok (.obj [("key", k), ("stored", .bool true),
          ("message", .str ("Value stored for key " ++ sq (pyStr k)))], storeSet st k v)
    ∧ handle_retrieve (storeSet st k v) (.obj [("key", k)])
      = .ok (.obj [("key", k), ("value", v)], storeSet st k v) := by
  have hnl := isNoneLike_of_ne_null k hn
  have h1 : objGet (.obj [("key", k), ("value", v)]) "key" = .ok (some k) := rfl
  have h2 : objGet (.obj [("key", k), ("value", v)]) "value" = .ok (some v) := rfl
  have h3 : objGet (.obj [("key", k)]) "key" = .ok (some k) := rfl
  constructor
  · simp [handle_store, h1, h2, hnl, hh]
  · simp [handle_retrieve, h3, hnl, hh, storeMem_storeSet_self st k v hh,
      storeGet_storeSet_self st k v hh]

/-- Claim C4, witness: storing `42` under the string key `x` and
retrieving `x` returns `42`. -/
theorem store_retrieve_roundtrip_witness :
    handle_store [] (.obj [("key", .str "x"), ("value", .num 42)])
      = .ok (.obj [("key", .str "x"), ("stored", .bool true),
          ("message", .str "Value stored for key 'x'")],
          [((Json.str "x"), (Json.num 42))])
    ∧ handle_retrieve [((Json.str "x"), (Json.num 42))] (.obj [("key", .str "x")])
      = .ok (.obj [("key", .str "x"), ("value", .num 42)],
          [((Json.str "x"), (Json.num 42))]) := by
  have h := store_retrieve_roundtrip [] (.str "x") (.num 42) rfl
    (fun hc => Json.noConfusion hc)
  exact h

/-- Claim C7, counterexample: the claim quantifies over every key, but
for the (non-null is not even required) key `null` the store itself and
the final retrieve fail with `INVALID_INPUT`, and for an array key the
retrieve raises `TypeError` (surfacing as `INTERNAL_ERROR`) — in neither
case `KEY_NOT_FOUND`. -/
theorem store_delete_retrieve_fails_on_invalid_keys :
    handle_store [] (.obj [("key", Json.null), ("value", .num 1)])
      = .error (.serverError "INVALID_INPUT" "key is required")
    ∧ handle_retrieve [] (.obj [("key", Json.null)])
      = .error (.serverError "INVALID_INPUT" "key is required")
    ∧ handle_retrieve [] (.obj [("key", .arr [])])
      = .error (.typeError "unhashable type: 'list'") :=
  ⟨rfl, rfl, rfl⟩

/-- Claim C7, amended: for every hashable non-null key `k`, after
`store(key=k, value=v)` and `delete(key=k)` a retrieve of `k` (with no
intervening store of `k`) fails with `KEY_NOT_FOUND`, from any prior
storage state. -/
theorem store_delete_retrieve_key_not_found (st : Storage) (k v : Json)
    (hh : k.hashable = true) (hn : k ≠ Json.null) :
    handle_delete (storeSet st k v) (.obj [("key", k)])
      = .ok (.obj [("key", k), ("deleted", .bool true),
          ("message", .str ("Key " ++ sq (pyStr k) ++ " deleted"))],
          storeDel (storeSet st k v) k)
    ∧ handle_retrieve (storeDel (storeSet st k v) k) (.obj [("key", k)])
      = .error (.serverError "KEY_NOT_FOUND"
          ("Key " ++ sq (pyStr k) ++ " not found in storage")) := by
  have hnl := isNoneLike_of_ne_null k hn
  have h3 : objGet (.obj [("key", k)]) "key" = .ok (some k) := rfl
  constructor
  · simp [handle_delete, h3, hnl, hh, storeMem_storeSet_self st k v hh]
  · simp [handle_retrieve, h3, hnl, hh, storeMem_storeDel_self (storeSet st k v) k]

/-- Claim C7, witness: store `42` under `x`, delete `x`, retrieve `x`
fails with `KEY_NOT_FOUND`. -/
theorem store_delete_retrieve_key_not_found_witness :
    handle_delete [((Json.str "x"), (Json.num 42))] (.obj [("key", .str "x")])
      = .ok (.obj [("key", .str "x"), ("deleted", .bool true),
          ("message", .str "Key 'x' deleted")], [])
    ∧ handle_retrieve [] (.obj [("key", .str "x")])
      = .error (.serverError "KEY_NOT_FOUND" "Key 'x' not found in storage") := by
  have h := store_delete_retrieve_key_not_found [] (.str "x") (.num 42) rfl
    (fun hc => Json.noConfusion hc)
  exact h

/-- Claim C6, counterexample: the claim fails as stated on two inputs.
A boolean operand is not numeric, yet `float(True)` coerces it to `1.0`,
so `calculate(add, true, 3)` succeeds with result `4` instead of failing
with `INVALID_INPUT`; and an unhashable `operation` outside the
operation set (here the array `[1]`) raises `TypeError` at the
membership test (surfacing as `INTERNAL_ERROR`) instead of failing with
`INVALID_OPERATION`. -/
theorem calculate_bool_operand_and_unhashable_operation :
    handle_calculate stf0 fpow0 []
        (.obj [("operation", .str "add"), ("a", .bool true), ("b", .num 3)])
      = .ok (.obj [("operation", .str "add"), ("a", .num 1), ("b", .num 3),
          ("result", .num 4)], [])
    ∧ handle_calculate stf0 fpow0 []
        (.obj [("operation", .arr [.num 1]), ("a", .num 2), ("b", .num 3)])
      = .error (.typeError "unhashable type: 'list'") := by
  constructor
  · have h13 : (1 : Rat) + 3 = 4 := by norm_num
    simp [handle_calculate, objGet, isNoneLike, pyFloat, Json.hashable,
      calcOpLookup, calcOperations, calcApply, jlookup, List.find?, h13]
  · rfl

/-- Claim C6, amended: `calculate(divide, a, 0)` and
`calculate(modulo, a, 0)` fail with `MATH_ERROR` for every numeric `a`;
`calculate(add, 2, 3)` succeeds with result `5`; a missing (absent or
null) `operation`/`a`/`b` fails with `INVALID_INPUT`; an `a` or `b` that
`float()` cannot coerce fails with `INVALID_INPUT` (booleans and numeric
strings do coerce and are accepted); and a hashable `operation` outside
{add, subtract, multiply, divide, power, modulo} fails with
`INVALID_OPERATION` (an unhashable one raises `TypeError` instead). -/
theorem calculate_error_classification (strToFloat : String → Option Rat)
    (fpow : Rat → Rat → Except PyExc Rat) (st : Storage) :
    (∀ a : Rat,
      handle_calculate strToFloat fpow st
          (.obj [("operation", .str "divide"), ("a", .num a), ("b", .num 0)])
        = .error (.serverError "MATH_ERROR" "Division by zero or invalid operation"))
    ∧ (∀ a : Rat,
      handle_calculate strToFloat fpow st
          (.obj [("operation", .str "modulo"), ("a", .num a), ("b", .num 0)])
        = .error (.serverError "MATH_ERROR" "Division by zero or invalid operation"))
    ∧ handle_calculate strToFloat fpow st
          (.obj [("operation", .str "add"), ("a", .num 2), ("b", .num 3)])
        = .ok (.obj [("operation", .str "add"), ("a", .num 2), ("b", .num 3),
            ("result", .num 5)], st)
    ∧ (∀ d : List (String × Json),
        (isNoneLike (jlookup d "operation") || isNoneLike (jlookup d "a")
          || isNoneLike (jlookup d "b")) = true →
        handle_calculate strToFloat fpow st (.obj d)
          = .error (.serverError "INVALID_INPUT" "operation, a, and b are required"))
    ∧ (∀ d : List (String × Json),
        (isNoneLike (jlookup d "operation") || isNoneLike (jlookup d "a")
          || isNoneLike (jlookup d "b")) = false →
        (pyFloat strToFloat ((jlookup d "a").getD .null) = none
          ∨ pyFloat strToFloat ((jlookup d "b").getD .null) = none) →
        handle_calculate strToFloat fpow st (.obj d)
          = .error (.serverError "INVALID_INPUT" "a and b must be numbers"))
    ∧ (∀ (d : List (String × Json)) (x y : Rat),
        (isNoneLike (jlookup d "operation") || isNoneLike (jlookup d "a")
          || isNoneLike (jlookup d "b")) = false →
        pyFloat strToFloat ((jlookup d "a").getD .null) = some x →
        pyFloat strToFloat ((jlookup d "b").getD .null) = some y →
        ((jlookup d "operation").getD .null).hashable = true →
        calcOpLookup ((jlookup d "operation").getD .null) = none →
        handle_calculate strToFloat fpow st (.obj d)
          = .error (.serverError "INVALID_OPERATION"
              "Operation must be one of: add, subtract, multiply, divide, power, modulo")) := by
  refine ⟨?_, ?_, ?_, ?_, ?_, ?_⟩
  · intro a
    simp [handle_calculate, objGet, isNoneLike, pyFloat, Json.hashable,
      calcOpLookup, calcOperations, calcApply, jlookup, List.find?]
  · intro a
    simp [handle_calculate, objGet, isNoneLike, pyFloat, Json.hashable,
      calcOpLookup, calcOperations, calcApply, jlookup, List.find?]
  · have h23 : (2 : Rat) + 3 = 5 := by norm_num
    simp [handle_calculate, objGet, isNoneLike, pyFloat, Json.hashable,
      calcOpLookup, calcOperations, calcApply, jlookup, List.find?, h23]
  · intro d hmiss
    simp only [handle_calculate, objGet, except_bind_ok]
    rw [hmiss]
    rfl
  · intro d hmiss hfl
    simp only [handle_calculate, objGet, except_bind_ok]
    rw [hmiss]
    cases ha : pyFloat strToFloat ((jlookup d "a").getD .null) <;>
      cases hb : pyFloat strToFloat ((jlookup d "b").getD .null) <;>
      simp_all
  · intro d x y hmiss hx hy hhash hlook
    simp only [handle_calculate, objGet, except_bind_ok]
    rw [hmiss, hx, hy]
    simp [hhash, hlook]
    rfl

/-- Claim C6, witness: the error classification at concrete inputs —
`divide`/`modulo` by zero at `a = 7`, missing operands, a non-numeric
string operand, an unknown string operation `cbrt`. -/
theorem calculate_error_classification_witness :
    handle_calculate stf0 fpow0 []
        (.obj [("operation", .str "divide"), ("a", .num 7), ("b", .num 0)])
      = .error (.serverError "MATH_ERROR" "Division by zero or invalid operation")
    ∧ handle_calculate stf0 fpow0 []
        (.obj [("operation", .str "modulo"), ("a", .num 7), ("b", .num 0)])
      = .error (.serverError "MATH_ERROR" "Division by zero or invalid operation")
    ∧ handle_calculate stf0 fpow0 []
        (.obj [("operation", .str "add"), ("a", .num 2), ("b", .num 3)])
      = .ok (.obj [("operation", .str "add"), ("a", .num 2), ("b", .num 3),
          ("result", .num 5)], [])
    ∧ handle_calculate stf0 fpow0 [] (.obj [("operation", .str "add")])
      = .error (.serverError "INVALID_INPUT" "operation, a, and b are required")
    ∧ handle_calculate stf0 fpow0 []
        (.obj [("operation", .str "add"), ("a", .str "xyz"), ("b", .num 3)])
      = .error (.serverError "INVALID_INPUT" "a and b must be numbers")
    ∧ handle_calculate stf0 fpow0 []
        (.obj [("operation", .str "cbrt"), ("a", .num 2), ("b", .num 3)])
      = .error (.serverError "INVALID_OPERATION"
          "Operation must be one of: add, subtract, multiply, divide, power, modulo") :=
  ⟨(calculate_error_classification stf0 fpow0 []).1 7,
   (calculate_error_classification stf0 fpow0 []).2.1 7,
   (calculate_error_classification stf0 fpow0 []).2.2.1,
   (calculate_error_classification stf0 fpow0 []).2.2.2.1 [("operation", .str "add")] rfl,
   (calculate_error_classification stf0 fpow0 []).2.2.2.2.1
     [("operation", .str "add"), ("a", .str "xyz"), ("b", .num 3)] rfl (Or.inl rfl),
   (calculate_error_classification stf0 fpow0 []).2.2.2.2.2
     [("operation", .str "cbrt"), ("a", .num 2), ("b", .num 3)] 2 3 rfl rfl rfl rfl rfl⟩

/-- Claim C3, counterexample: the claim speaks of every frame that
cannot be parsed as a JSON *object*, but the frame `5` — valid JSON that
is not an object (`json.loads` returns the int `5`) — is answered with a
`PROCESSING_ERROR` envelope (from the `AttributeError` of
`message.get`), not with `INVALID_JSON`.  `parseOnly5` is the stand-in
for `json.loads` on this frame. -/
theorem nonobject_json_frame_not_invalid_json :
    (respondFrame parseOnly5 stf0 fpow0 clock0 [] ("5").toList).1.error
      = some (errObj "PROCESSING_ERROR"
          "Error processing message: 'int' object has no attribute 'get'") :=
  rfl

/-- Claim C3, amended: for every frame on which `json.loads` fails (not
valid JSON at all; a valid-JSON non-object frame yields
`PROCESSING_ERROR` instead), the connection handler answers with exactly
one `INVALID_JSON` envelope carrying no `request_id`, the storage is
untouched, and the remaining frames of the same connection are processed
exactly as they would have been — the connection stays open. -/
theorem invalid_json_one_envelope_then_continue
    (parse : List Char → Except String Json) (strToFloat : String → Option Rat)
    (fpow : Rat → Rat → Except PyExc Rat) (clock : Clock) (st : Storage)
    (frame : List Char) (rest : List (List Char)) (emsg : String)
    (h : parse frame = .error emsg) :
    runFrames parse strToFloat fpow clock st (frame :: rest)
      = ((create_error_response clock none "INVALID_JSON"
            ("Invalid JSON format: " ++ emsg))
          :: (runFrames parse strToFloat fpow clock st rest).1,
         (runFrames parse strToFloat fpow clock st rest).2)
    ∧ (create_error_response clock none "INVALID_JSON"
        ("Invalid JSON format: " ++ emsg)).request_id = none
    ∧ (create_error_response clock none "INVALID_JSON"
        ("Invalid JSON format: " ++ emsg)).error
      = some (errObj "INVALID_JSON" ("Invalid JSON format: " ++ emsg))
    ∧ (create_error_response clock none "INVALID_JSON"
        ("Invalid JSON format: " ++ emsg)).success = false := by
  have hs := create_error_response_shape clock none "INVALID_JSON"
    ("Invalid JSON format: " ++ emsg)
  refine ⟨?_, ?_, hs.2.2.1, hs.1⟩
  · simp [runFrames, respondFrame, h]
  · have hrid := hs.2.2.2
    simpa [optTruthy] using hrid

/-- Claim C3, witness: a failing parse on the frame `oops` followed by
the frame `5` — the bad frame gets one `INVALID_JSON` envelope, the next
frame is still processed. -/
theorem invalid_json_one_envelope_then_continue_witness :
    runFrames parseOnly5 stf0 fpow0 clock0 [] (("oops").toList :: [("5").toList])
      = ((create_error_response clock0 none "INVALID_JSON"
            ("Invalid JSON format: " ++ "Expecting value: line 1 column 1 (char 0)"))
          :: (runFrames parseOnly5 stf0 fpow0 clock0 [] [("5").toList]).1,
         (runFrames parseOnly5 stf0 fpow0 clock0 [] [("5").toList]).2)
    ∧ (create_error_response clock0 none "INVALID_JSON"
        ("Invalid JSON format: " ++ "Expecting value: line 1 column 1 (char 0)")).request_id
      = none
    ∧ (create_error_response clock0 none "INVALID_JSON"
        ("Invalid JSON format: " ++ "Expecting value: line 1 column 1 (char 0)")).error
      = some (errObj "INVALID_JSON"
          ("Invalid JSON format: " ++ "Expecting value: line 1 column 1 (char 0)"))
    ∧ (create_error_response clock0 none "INVALID_JSON"
        ("Invalid JSON format: " ++ "Expecting value: line 1 column 1 (char 0)")).success
      = false :=
  invalid_json_one_envelope_then_continue parseOnly5 stf0 fpow0 clock0 []
    ("oops").toList [("5").toList] "Expecting value: line 1 column 1 (char 0)" rfl

theorem splitFirst_length : ∀ (buf line rest : List Char),
    splitFirst buf = some (line, rest) → rest.length < buf.length := by
  intro buf
  induction buf with
  | nil => intro line rest h; simp [splitFirst] at h
  | cons c cs ih =>
    intro line rest h
    by_cases hc : c = '\n'
    · simp [splitFirst, hc] at h
      obtain ⟨h1, h2⟩ := h
      subst h2
      simp
    · simp only [splitFirst, if_neg hc, Option.map_eq_some'] at h
      obtain ⟨⟨l, r⟩, hcs, heq⟩ := h
      cases heq
      have := ih l r hcs
      simp only [List.length_cons]
      omega

theorem splitFirst_append_some : ∀ (a b line rest : List Char),
    splitFirst a = some (line, rest) →
    splitFirst (a ++ b) = some (line, rest ++ b) := by
  intro a
  induction a with
  | nil => intro b line rest h; simp [splitFirst] at h
  | cons c cs ih =>
    intro b line rest h
    by_cases hc : c = '\n'
    · simp [splitFirst, hc] at h ⊢
      obtain ⟨h1, h2⟩ := h
      subst h1
      subst h2
      exact ⟨rfl, rfl⟩
    · simp only [splitFirst, if_neg hc, Option.map_eq_some'] at h
      obtain ⟨⟨l, r⟩, hcs, heq⟩ := h
      cases heq
      have := ih b l r hcs
      simp only [List.cons_append, splitFirst, if_neg hc, List.append_eq, this,
        Option.map_some']

theorem splitFirst_append_none : ∀ (a b : List Char), splitFirst a = none →
    splitFirst (a ++ b) = (splitFirst b).map (fun p => (a ++ p.1, p.2)) := by
  intro a
  induction a with
  | nil =>
    intro b _
    cases hb : splitFirst b with
    | none => simp [hb]
    | some p => simp [hb]
  | cons c cs ih =>
    intro b h
    by_cases hc : c = '\n'
    · simp [splitFirst, hc] at h
    · simp only [splitFirst, if_neg hc] at h
      have hcs : splitFirst cs = none := by
        cases hcs : splitFirst cs with
        | none => rfl
        | some p => rw [hcs] at h; simp at h
      simp only [List.cons_append, splitFirst, if_neg hc, List.append_eq, ih b hcs]
      cases hb : splitFirst b with
      | none => rfl
      | some p => rfl

theorem drainFuel_none (buf : List Char) (h : splitFirst buf = none) :
    ∀ fuel, drainFuel fuel buf = ([], buf) := by
  intro fuel
  cases fuel with
  | zero => rfl
  | succ n => simp [drainFuel, h]

theorem drainFuel_step (fuel : Nat) (buf line rest : List Char)
    (h : splitFirst buf = some (line, rest)) :
    drainFuel (fuel + 1) buf
      = ((if (pyStrip line).isEmpty then (drainFuel fuel rest).1
          else pyStrip line :: (drainFuel fuel rest).1), (drainFuel fuel rest).2) := by
  simp only [drainFuel, h]

theorem drainFuel_succ : ∀ (fuel : Nat) (buf : List Char), buf.length ≤ fuel →
    drainFuel (fuel + 1) buf = drainFuel fuel buf := by
  intro fuel
  induction fuel with
  | zero =>
    intro buf h
    have : buf = [] := List.length_eq_zero.mp (Nat.le_zero.mp h)
    subst this
    rfl
  | succ n ih =>
    intro buf h
    cases hs : splitFirst buf with
    | none => rw [drainFuel_none buf hs, drainFuel_none buf hs]
    | some p =>
      obtain ⟨line, rest⟩ := p
      have hlt : rest.length < buf.length := splitFirst_length buf line rest hs
      have hle : rest.length ≤ n := by omega
      rw [drainFuel_step (n + 1) buf line rest hs, drainFuel_step n buf line rest hs,
        ih rest hle]

theorem drainFuel_of_le (fuel : Nat) (buf : List Char) (h : buf.length ≤ fuel) :
    drainFuel fuel buf = drain buf := by
  obtain ⟨k, hk⟩ : ∃ k, fuel = buf.length + k := ⟨fuel - buf.length, by omega⟩
  subst hk
  induction k with
  | zero => rfl
  | succ n ih =>
    rw [show buf.length + (n + 1) = (buf.length + n) + 1 from rfl,
      drainFuel_succ (buf.length + n) buf (by omega)]
    exact ih (by omega)

theorem drain_eq_none (buf : List Char) (h : splitFirst buf = none) :
    drain buf = ([], buf) :=
  drainFuel_none buf h buf.length

theorem drain_eq_step (buf line rest : List Char)
    (h : splitFirst buf = some (line, rest)) :
    drain buf = ((if (pyStrip line).isEmpty then (drain rest).1
                  else pyStrip line :: (drain rest).1), (drain rest).2) := by
  have hlt : rest.length < buf.length := splitFirst_length buf line rest h
  cases hb : buf with
  | nil => rw [hb] at h; simp [splitFirst] at h
  | cons c cs =>
    rw [← hb]
    have hlen : buf.length = cs.length + 1 := by rw [hb]; rfl
    rw [drain, hlen, drainFuel_step cs.length buf line rest h,
      drainFuel_of_le cs.length rest (by omega)]

theorem drain_rem_newline_free : ∀ (n : Nat) (buf : List Char), buf.length ≤ n →
    splitFirst (drain buf).2 = none := by
  intro n
  induction n with
  | zero =>
    intro buf h
    have : buf = [] := List.length_eq_zero.mp (Nat.le_zero.mp h)
    subst this
    rfl
  | succ n ih =>
    intro buf h
    cases hs : splitFirst buf with
    | none => rw [drain_eq_none buf hs]; exact hs
    | some p =>
      obtain ⟨line, rest⟩ := p
      have hlt : rest.length < buf.length := splitFirst_length buf line rest hs
      rw [drain_eq_step buf line rest hs]
      exact ih rest (by omega)

theorem drain_append : ∀ (n : Nat) (a b : List Char), a.length ≤ n →
    drain (a ++ b) = ((drain a).1 ++ (drain ((drain a).2 ++ b)).1,
                      (drain ((drain a).2 ++ b)).2) := by
  intro n
  induction n with
  | zero =>
    intro a b h
    have : a = [] := List.length_eq_zero.mp (Nat.le_zero.mp h)
    subst this
    simp [drain_eq_none [] rfl]
  | succ n ih =>
    intro a b h
    cases hs : splitFirst a with
    | none =>
      rw [drain_eq_none a hs]
      simp
    | some p =>
      obtain ⟨line, rest⟩ := p
      have hlt : rest.length < a.length := splitFirst_length a line rest hs
      have hab : splitFirst (a ++ b) = some (line, rest ++ b) :=
        splitFirst_append_some a b line rest hs
      rw [drain_eq_step (a ++ b) line (rest ++ b) hab, drain_eq_step a line rest hs,
        ih rest b (by omega)]
      by_cases he : (pyStrip line).isEmpty <;> simp [he]

theorem drain_frames_nonempty : ∀ (n : Nat) (buf : List Char), buf.length ≤ n →
    ∀ f ∈ (drain buf).1, f ≠ [] := by
  intro n
  induction n with
  | zero =>
    intro buf h
    have : buf = [] := List.length_eq_zero.mp (Nat.le_zero.mp h)
    subst this
    intro f hf
    simp [drain_eq_none [] rfl] at hf
  | succ n ih =>
    intro buf h f hf
    cases hs : splitFirst buf with
    | none => rw [drain_eq_none buf hs] at hf; simp at hf
    | some p =>
      obtain ⟨line, rest⟩ := p
      have hlt : rest.length < buf.length := splitFirst_length buf line rest hs
      rw [drain_eq_step buf line rest hs] at hf
      by_cases he : (pyStrip line).isEmpty
      · rw [if_pos he] at hf
        exact ih rest (by omega) f hf
      · rw [if_neg he] at hf
        cases hf with
        | head =>
          intro hemp
          rw [hemp] at he
          simp at he
        | tail _ hmem => exact ih rest (by omega) f hmem

theorem utf8DecodeOne_length : ∀ (bytes : List Nat) (c : Char) (rest : List Nat),
    utf8DecodeOne bytes = some (c, rest) → rest.length < bytes.length := by
  intro bytes c rest h
  cases bytes with
  | nil => simp [utf8DecodeOne] at h
  | cons b tl =>
    simp only [utf8DecodeOne] at h
    split_ifs at h with h1 h2 h3 h4
    · simp only [Option.some.injEq, Prod.mk.injEq] at h
      obtain ⟨-, hr⟩ := h
      subst hr
      simp
    · cases tl with
      | nil => simp at h
      | cons b1 t1 =>
        dsimp only at h
        split_ifs at h with hc1
        simp only [Option.some.injEq, Prod.mk.injEq] at h
        obtain ⟨-, hr⟩ := h
        subst hr
        simp only [List.length_cons]
        omega
    · cases tl with
      | nil => simp at h
      | cons b1 t1 =>
        cases t1 with
        | nil => simp at h
        | cons b2 t2 =>
          dsimp only at h
          split_ifs at h with hc1
          simp only [Option.some.injEq, Prod.mk.injEq] at h
          obtain ⟨-, hr⟩ := h
          subst hr
          simp only [List.length_cons]
          omega
    · cases tl with
      | nil => simp at h
      | cons b1 t1 =>
        cases t1 with
        | nil => simp at h
        | cons b2 t2 =>
          cases t2 with
          | nil => simp at h
          | cons b3 t3 =>
            dsimp only at h
            split_ifs at h with hc1
            simp only [Option.some.injEq, Prod.mk.injEq] at h
            obtain ⟨-, hr⟩ := h
            subst hr
            simp only [List.length_cons]
            omega

theorem utf8DecodeOne_append : ∀ (a bs : List Nat) (c : Char) (rest : List Nat),
    utf8DecodeOne a = some (c, rest) →
    utf8DecodeOne (a ++ bs) = some (c, rest ++ bs) := by
  intro a bs c rest h
  cases a with
  | nil => simp [utf8DecodeOne] at h
  | cons b tl =>
    simp only [List.cons_append, utf8DecodeOne] at h ⊢
    split_ifs at h ⊢ with h1 h2 h3 h4
    · simp only [Option.some.injEq, Prod.mk.injEq] at h
      obtain ⟨hc, hr⟩ := h
      subst hc
      subst hr
      rfl
    · cases tl with
      | nil => simp at h
      | cons b1 t1 =>
        simp only [List.cons_append]
        dsimp only at h ⊢
        split_ifs at h ⊢ with hc1
        simp only [Option.some.injEq, Prod.mk.injEq] at h
        obtain ⟨hc, hr⟩ := h
        subst hc
        subst hr
        rfl
    · cases tl with
      | nil => simp at h
      | cons b1 t1 =>
        cases t1 with
        | nil => simp at h
        | cons b2 t2 =>
          simp only [List.cons_append]
          dsimp only at h ⊢
          split_ifs at h ⊢ with hc1
          simp only [Option.some.injEq, Prod.mk.injEq] at h
          obtain ⟨hc, hr⟩ := h
          subst hc
          subst hr
          rfl
    · cases tl with
      | nil => simp at h
      | cons b1 t1 =>
        cases t1 with
        | nil => simp at h
        | cons b2 t2 =>
          cases t2 with
          | nil => simp at h
          | cons b3 t3 =>
            simp only [List.cons_append]
            dsimp only at h ⊢
            split_ifs at h ⊢ with hc1
            simp only [Option.some.injEq, Prod.mk.injEq] at h
            obtain ⟨hc, hr⟩ := h
            subst hc
            subst hr
            rfl

theorem utf8DecodeFuel_succ : ∀ (fuel : Nat) (bytes : List Nat), bytes.length ≤ fuel →
    utf8DecodeFuel (fuel + 1) bytes = utf8DecodeFuel fuel bytes := by
  intro fuel
  induction fuel with
  | zero =>
    intro bytes h
    have : bytes = [] := List.length_eq_zero.mp (Nat.le_zero.mp h)
    subst this
    rfl
  | succ n ih =>
    intro bytes h
    cases bytes with
    | nil => rfl
    | cons b tl =>
      cases hone : utf8DecodeOne (b :: tl) with
      | none => simp only [utf8DecodeFuel, hone]
      | some p =>
        obtain ⟨c, rest'⟩ := p
        have hlt : rest'.length < (b :: tl).length :=
          utf8DecodeOne_length (b :: tl) c rest' hone
        have hle : rest'.length ≤ n := by
          simp only [List.length_cons] at hlt h
          omega
        simp only [utf8DecodeFuel, hone, ih rest' hle]

theorem utf8DecodeFuel_of_le (fuel : Nat) (bytes : List Nat) (h : bytes.length ≤ fuel) :
    utf8DecodeFuel fuel bytes = utf8Decode bytes := by
  obtain ⟨k, hk⟩ : ∃ k, fuel = bytes.length + k := ⟨fuel - bytes.length, by omega⟩
  subst hk
  induction k with
  | zero => rfl
  | succ n ih =>
    rw [show bytes.length + (n + 1) = (bytes.length + n) + 1 from rfl,
      utf8DecodeFuel_succ (bytes.length + n) bytes (by omega)]
    exact ih (by omega)

theorem utf8Decode_step (bytes : List Nat) (c : Char) (rest : List Nat)
    (h : utf8DecodeOne bytes = some (c, rest)) :
    utf8Decode bytes = (utf8Decode rest).map (fun t => c :: t) := by
  cases bytes with
  | nil => simp [utf8DecodeOne] at h
  | cons b tl =>
    have hlt : rest.length < (b :: tl).length := utf8DecodeOne_length (b :: tl) c rest h
    have hlen : (b :: tl).length = tl.length + 1 := rfl
    rw [utf8Decode, hlen]
    simp only [utf8DecodeFuel, h]
    rw [utf8DecodeFuel_of_le tl.length rest (by simp only [List.length_cons] at hlt; omega)]

theorem utf8Decode_none (bytes : List Nat) (hne : bytes ≠ [])
    (h : utf8DecodeOne bytes = none) : utf8Decode bytes = none := by
  cases bytes with
  | nil => exact absurd rfl hne
  | cons b tl =>
    rw [utf8Decode, show (b :: tl).length = tl.length + 1 from rfl]
    simp only [utf8DecodeFuel, h]

theorem utf8Decode_append : ∀ (n : Nat) (a bs : List Nat) (ta tb : List Char),
    a.length ≤ n → utf8Decode a = some ta → utf8Decode bs = some tb →
    utf8Decode (a ++ bs) = some (ta ++ tb) := by
  intro n
  induction n with
  | zero =>
    intro a bs ta tb h ha hb
    have : a = [] := List.length_eq_zero.mp (Nat.le_zero.mp h)
    subst this
    have hta : ta = [] := by
      have : (some [] : Option (List Char)) = some ta := ha
      simpa using this.symm
    subst hta
    simpa using hb
  | succ n ih =>
    intro a bs ta tb h ha hb
    cases a with
    | nil =>
      have hta : ta = [] := by
        have h0 : (some [] : Option (List Char)) = some ta := ha
        simpa using h0.symm
      subst hta
      simpa using hb
    | cons b tl =>
      cases hone : utf8DecodeOne (b :: tl) with
      | none =>
        rw [utf8Decode_none (b :: tl) (by simp) hone] at ha
        cases ha
      | some p =>
        obtain ⟨c, rest⟩ := p
        rw [utf8Decode_step (b :: tl) c rest hone] at ha
        rw [Option.map_eq_some'] at ha
        obtain ⟨tr, hrest, hta⟩ := ha
        subst hta
        have hlt : rest.length < (b :: tl).length :=
          utf8DecodeOne_length (b :: tl) c rest hone
        have hone2 : utf8DecodeOne ((b :: tl) ++ bs) = some (c, rest ++ bs) :=
          utf8DecodeOne_append (b :: tl) bs c rest hone
        rw [utf8Decode_step ((b :: tl) ++ bs) c (rest ++ bs) hone2,
          ih rest bs tr tb (by simp only [List.length_cons] at hlt h; omega) hrest hb]
        rfl

theorem utf8Decode_flatten : ∀ (chunks : List (List Nat)) (texts : List (List Char)),
    decodeChunks chunks = some texts →
    utf8Decode chunks.flatten = some texts.flatten := by
  intro chunks
  induction chunks with
  | nil =>
    intro texts h
    simp only [decodeChunks, Option.some.injEq] at h
    subst h
    rfl
  | cons c cs ih =>
    intro texts h
    simp only [decodeChunks] at h
    cases hc : utf8Decode c with
    | none => rw [hc] at h; cases h
    | some t =>
      rw [hc, Option.map_eq_some'] at h
      obtain ⟨ts, hcs, htexts⟩ := h
      subst htexts
      simp only [List.flatten_cons]
      exact utf8Decode_append c.length c cs.flatten t ts.flatten (Nat.le_refl _) hc (ih ts hcs)

theorem runByteChunks_eq_drain : ∀ (chunks : List (List Nat)) (texts : List (List Char))
    (st : List Char), splitFirst st = none → decodeChunks chunks = some texts →
    runByteChunks st chunks
      = ((drain (st ++ texts.flatten)).1, some (drain (st ++ texts.flatten)).2) := by
  intro chunks
  induction chunks with
  | nil =>
    intro texts st hst hdec
    simp only [decodeChunks, Option.some.injEq] at hdec
    subst hdec
    simp [runByteChunks, drain_eq_none st hst]
  | cons c cs ih =>
    intro texts st hst hdec
    simp only [decodeChunks] at hdec
    cases hc : utf8Decode c with
    | none => rw [hc] at hdec; cases hdec
    | some t =>
      rw [hc, Option.map_eq_some'] at hdec
      obtain ⟨ts, hcs, htexts⟩ := hdec
      subst htexts
      have hrem : splitFirst (drain (st ++ t)).2 = none :=
        drain_rem_newline_free (st ++ t).length (st ++ t) (Nat.le_refl _)
      have hrec := ih ts (drain (st ++ t)).2 hrem hcs
      simp only [runByteChunks, hc, hrec, List.flatten_cons]
      rw [show st ++ (t ++ ts.flatten) = (st ++ t) ++ ts.flatten from
          (List.append_assoc st t ts.flatten).symm,
        drain_append (st ++ t).length (st ++ t) ts.flatten (Nat.le_refl _)]

/-- Claim C5, counterexample: at the byte level the dispatched frame
sequence does depend on the chunk boundaries, not only on the
concatenation of the received bytes.  The three bytes `C3 A9 0A` — the
two-byte UTF-8 character `U+00E9` and a newline — dispatch the frame
`U+00E9` when they arrive in one chunk, but when the `recv` boundary
falls inside the character, `data.decode('utf-8')` on the chunk `C3`
raises `UnicodeDecodeError` (server.py line 302, outside the
per-message `try`), the outer handler closes the connection, and nothing
is dispatched, although the concatenated bytes are the same (conjunct
1). -/
theorem frame_dispatch_depends_on_byte_chunking :
    ([0xC3, 0xA9, 0x0A] : List Nat) = [0xC3] ++ [0xA9, 0x0A]
    ∧ runByteChunks [] [[0xC3, 0xA9, 0x0A]] = ([[Char.ofNat 0xE9]], some [])
    ∧ runByteChunks [] [[0xC3], [0xA9, 0x0A]] = ([], none) :=
  ⟨rfl, rfl, rfl⟩

/-- Claim C5, amended: for every received chunk sequence in which each
chunk is by itself valid UTF-8 (the chunk boundaries fall on character
boundaries — in particular any ASCII stream), the dispatched frames and
the final buffer are those of the drained decode of the whole byte
stream: together with conjunct 1 — the per-chunk decodes concatenate to
the decode of the concatenated bytes — the dispatched frame sequence
depends only on the byte concatenation and not on where such boundaries
fall (conjunct 2); a stream with no newline dispatches nothing, the
partial frame staying buffered (conjunct 3); every dispatched frame is
nonempty after stripping — a frame that is empty after whitespace
trimming produces no response (conjuncts 4 and 5).  A chunk that is not
valid UTF-8 on its own instead raises `UnicodeDecodeError` and
terminates the connection, as the counterexample shows. -/
theorem utf8_aligned_framing_chunk_boundary_independent
    (chunks : List (List Nat)) (texts : List (List Char))
    (hdec : decodeChunks chunks = some texts) :
    utf8Decode chunks.flatten = some texts.flatten
    ∧ runByteChunks [] chunks
        = ((drain texts.flatten).1, some (drain texts.flatten).2)
    ∧ (splitFirst texts.flatten = none → (runByteChunks [] chunks).1 = [])
    ∧ (∀ f ∈ (runByteChunks [] chunks).1, f ≠ [])
    ∧ (∀ (ws b : List Char), splitFirst ws = none → pyStrip ws = [] →
        drain (ws ++ '\n' :: b) = drain b) := by
  have hmain : runByteChunks [] chunks
      = ((drain texts.flatten).1, some (drain texts.flatten).2) := by
    have := runByteChunks_eq_drain chunks texts [] rfl hdec
    simpa using this
  refine ⟨utf8Decode_flatten chunks texts hdec, hmain, ?_, ?_, ?_⟩
  · intro h
    rw [hmain]
    rw [drain_eq_none texts.flatten h]
  · intro f hf
    rw [hmain] at hf
    exact drain_frames_nonempty texts.flatten.length texts.flatten (Nat.le_refl _) f hf
  · intro ws b hws hstrip
    have hsplit : splitFirst (ws ++ '\n' :: b) = some (ws, b) := by
      rw [splitFirst_append_none ws ('\n' :: b) hws]
      simp [splitFirst]
    rw [drain_eq_step (ws ++ '\n' :: b) ws b hsplit, hstrip]
    simp

/-- Claim C5, witness: the byte stream `68 69 0A C3 A9` (`hi`, newline,
`U+00E9`) chunked as `68 69 | 0A C3 A9` would split no character but
would split a frame — it dispatches exactly the frame `hi` and leaves
the two-byte character buffered, and equals the one-chunk result. -/
theorem utf8_aligned_framing_chunk_boundary_independent_witness :
    runByteChunks [] [[0x68, 0x69], [0x0A, 0xC3, 0xA9]]
      = ([[Char.ofNat 0x68, Char.ofNat 0x69]], some [Char.ofNat 0xE9])
    ∧ runByteChunks [] [[0x68, 0x69, 0x0A, 0xC3, 0xA9]]
      = ([[Char.ofNat 0x68, Char.ofNat 0x69]], some [Char.ofNat 0xE9]) := by
  have h1 := utf8_aligned_framing_chunk_boundary_independent
    [[0x68, 0x69], [0x0A, 0xC3, 0xA9]]
    [[Char.ofNat 0x68, Char.ofNat 0x69], [Char.ofNat 0x0A, Char.ofNat 0xE9]] rfl
  have h2 := utf8_aligned_framing_chunk_boundary_independent
    [[0x68, 0x69, 0x0A, 0xC3, 0xA9]]
    [[Char.ofNat 0x68, Char.ofNat 0x69, Char.ofNat 0x0A, Char.ofNat 0xE9]] rfl
  constructor
  · rw [h1.2.1]
    rfl
  · rw [h2.2.1]
    rfl

end PythonServer
